import Mathlib

/-!
Verification of the message view model, auth-error parsing and lifecycle
logic of the uok-chat client (src/pages/ChatPage.tsx, src/pages/AuthPage.tsx,
src/AppRouter.tsx), as a shallow embedding in Lean.

Every definition below is translated from the TypeScript source; theorems
settle the specification's claims about it.
-/

/-- A chat message as held in the `messages` component state
    (interface `Message` in ChatPage.tsx).  `expand` carries the
    denormalized author name (`expand?.userId?.name`) when present. -/
structure Message where
  id : String
  text : String
  userId : String
  created : String
  expand : Option String
deriving Repr, DecidableEq

/-- The authenticated user record held by `pb.authStore.record`
    (the fields ChatPage.tsx reads: `id` and `name`). -/
structure AuthUser where
  id : String
  name : String
deriving Repr, DecidableEq

/-- The action tag of a realtime event (`e.action`). -/
inductive EventAction where
  | create
  | update
  | delete
deriving Repr, DecidableEq

/-- A realtime subscription event (`e` in the `subscribe` callback). -/
structure RemoteEvent where
  action : EventAction
  record : Message
deriving Repr, DecidableEq

/-- The identifiers of the visible list, in order. -/
def msgIds (l : List Message) : List String :=
  l.map Message.id

/-- JS truthiness of a string: non-empty strings are truthy. -/
def strTruthy (s : String) : Bool :=
  s.length != 0

/-- JS `String.prototype.trim`: strip leading and trailing whitespace. -/
def jsTrim (s : String) : String :=
  String.mk
    (((s.toList.dropWhile Char.isWhitespace).reverse.dropWhile
        Char.isWhitespace).reverse)

/-- The comparison `e.record.userId == pb.authStore.record?.id`: when no
    auth record is present the optional chaining yields `undefined` and the
    loose comparison with a string id is `false`. -/
def isLocalAuthor (localId : Option String) (authorId : String) : Bool :=
  match localId with
  | some uid => authorId == uid
  | none => false

/-- One step of the `subscribeToMessages` callback in ChatPage.tsx
    (lines 58-89): on a `create` action, drop events authored by the local
    session user, drop events whose record id is already in the list
    (`prev.some(msg => msg.id === e.record.id)`), and otherwise append the
    record's fields to the end of the list. -/
def subscribeHandler (localId : Option String) (prev : List Message)
    (e : RemoteEvent) : List Message :=
  if e.action = EventAction.create then
    if isLocalAuthor localId e.record.userId then
      prev
    else if prev.any fun msg => msg.id == e.record.id then
      prev
    else
      prev ++ [{ created := e.record.created, id := e.record.id,
                 text := e.record.text, userId := e.record.userId,
                 expand := e.record.expand }]
  else
    prev

/-- Delivering a sequence of realtime events to the handler, in order
    (the UI thread serializes the callback invocations). -/
def subscribeRun (localId : Option String) (init : List Message)
    (events : List RemoteEvent) : List Message :=
  events.foldl (subscribeHandler localId) init

/-- `loadMessages` on a successful fetch replaces the list wholesale with
    the fetched records (`setMessages(records)`). -/
def loadMessages (fetched : List Message) : List Message :=
  fetched

/-- The payload of `pb.collection("messages").create({...})`. -/
structure SendPayload where
  text : String
  userId : String
deriving Repr, DecidableEq

/-- The observable outcome of one `handleSendMessage` invocation: the new
    `messages` state, the new composer input (`newMessage`), the durable
    create calls issued, and whether the catch block logged an error. -/
structure SendResult where
  messages : List Message
  newMessage : String
  createCalls : List SendPayload
  errorLogged : Bool
deriving Repr, DecidableEq

/-- `handleSendMessage` in ChatPage.tsx (lines 96-119): guard
    `!newMessage.trim() || !currentUser`; otherwise append the optimistic
    entry (id and userId both `currentUser.id`, text the raw input), clear
    the input, and issue one create call carrying `_txt = newMessage`
    (the raw, untrimmed input) and the author id.  `createFails` tells
    whether the awaited create call rejects; the catch block only logs. -/
def handleSendMessage (currentUser : Option AuthUser) (now : String)
    (messages : List Message) (newMessage : String)
    (createFails : Bool) : SendResult :=
  match currentUser with
  | none =>
    { messages := messages, newMessage := newMessage,
      createCalls := [], errorLogged := false }
  | some u =>
    if strTruthy (jsTrim newMessage) then
      { messages := messages ++
          [{ created := now, id := u.id, text := newMessage,
             userId := u.id, expand := none }],
        newMessage := "",
        createCalls := [{ text := newMessage, userId := u.id }],
        errorLogged := createFails }
    else
      { messages := messages, newMessage := newMessage,
        createCalls := [], errorLogged := false }

/-- The chat page state touched by `handleLogout`. -/
structure ChatState where
  messages : List Message
  newMessage : String
  authRecord : Option AuthUser
deriving Repr, DecidableEq

/-- `handleLogout` (lines 91-94): `pb.authStore.clear()` drops the auth
    record, and `setMessages([])` empties the visible list. -/
def handleLogout (s : ChatState) : ChatState :=
  { s with authRecord := none, messages := [] }

/-- Modelled from the spec's words (§8): one entry per distinct
    identifier, in first-arrival order.  This is the spec-side reference
    against which the handler's fold is compared. -/
def idStep (acc : List String) (i : String) : List String :=
  if acc.any fun j => j == i then acc else acc ++ [i]

/-- Modelled from the spec's words (§8): the ids a dedup-by-identifier
    merge keeps from a delivered sequence, first arrival first. -/
def firstArrival (ids : List String) : List String :=
  ids.foldl idStep []

/-- A field-level validation error inside the service's error response
    (the values of `response.data` in AuthPage.tsx's `PocketBaseError`). -/
structure PbField where
  code : String
  message : String
deriving Repr, DecidableEq

/-- The `response` part of a service error.  `data` is optional (`undefined`
    is falsy); when present, `Object.values` enumerates the fields in
    insertion order, modelled here as an association list. -/
structure PbResponse where
  code : Nat
  data : Option (List (String × PbField))
deriving Repr, DecidableEq

/-- The values `parsePbError` can receive.  `nonObject` stands for inputs
    on which property access throws or yields `undefined` everywhere
    (null, undefined, primitives); `obj` carries the optional top-level
    `message` and the optional `response`. -/
inductive ErrVal where
  | nonObject
  | obj (message : Option String) (response : Option PbResponse)
deriving Repr, DecidableEq

/-- JS `toLocaleLowerCase` on the strings involved here. -/
def jsToLower (s : String) : String :=
  String.mk (s.toList.map Char.toLower)

/-- Whether `pat` is a prefix of `cs` (character by character). -/
def charsPre : List Char → List Char → Bool
  | [], _ => true
  | _ :: _, [] => false
  | p :: ps, c :: cs => (p == c) && charsPre ps cs

/-- Whether `pat` occurs as a contiguous run inside `cs`
    (JS `String.prototype.includes`). -/
def charsSub (pat : List Char) : List Char → Bool
  | [] => charsPre pat []
  | c :: cs => charsPre pat (c :: cs) || charsSub pat cs

/-- JS `s.includes(pat)`. -/
def strIncludes (s pat : String) : Bool :=
  charsSub pat.toList s.toList

/-- The fall-through `return pbError.message || "An unknown error
    occurred.";` — an empty or absent message is falsy. -/
def fallbackMsg : Option String → String
  | some m => if strTruthy m then m else "An unknown error occurred."
  | none => "An unknown error occurred."

/-- `parsePbError` in AuthPage.tsx (lines 38-57): when the error carries
    `response.data` with at least one field whose message is truthy,
    return that first field's message — except that a message containing
    "value must be unique" (compared lowercased) is replaced by
    "Account with this email already exists"; otherwise fall back to the
    top-level message or the generic text.  Inputs on which property
    access throws are caught and also yield the generic text. -/
def parsePbError : ErrVal → String
  | ErrVal.nonObject => "An unknown error occurred."
  | ErrVal.obj message none => fallbackMsg message
  | ErrVal.obj message (some { code := _, data := none }) => fallbackMsg message
  | ErrVal.obj message (some { code := _, data := some [] }) => fallbackMsg message
  | ErrVal.obj message (some { code := _, data := some ((_, f) :: _) }) =>
    if strTruthy f.message then
      if strIncludes (jsToLower f.message) "value must be unique" then
        "Account with this email already exists"
      else
        f.message
    else
      fallbackMsg message

/-- The calls a `useEffect` body makes on mount and the calls its returned
    cleanup makes on unmount. -/
inductive EffAction where
  | loadMessagesCall
  | subscribeCall
  | unsubscribeCall
deriving Repr, DecidableEq

/-- A mount effect paired with its unmount cleanup. -/
structure ReactEffect where
  onMount : List EffAction
  onUnmount : List EffAction
deriving Repr, DecidableEq

/-- The mount effect of ChatPage.tsx (lines 34-37): it calls
    `loadMessages()` and `subscribeToMessages()` and returns no cleanup,
    so nothing runs on unmount. -/
def chatMountEffect : ReactEffect :=
  { onMount := [EffAction.loadMessagesCall, EffAction.subscribeCall],
    onUnmount := [] }

/-! ### Concrete values used by the witnesses -/

/-- A remote message by another user, as in the spec's §8 scenario. -/
def msgM1 : Message :=
  { id := "m1", text := "hi", userId := "u2", created := "T1", expand := none }

/-- A create event delivering `msgM1`. -/
def evM1 : RemoteEvent :=
  { action := EventAction.create, record := msgM1 }

/-- A local session user. -/
def userU1 : AuthUser :=
  { id := "u1", name := "alice" }

/-- First of two consecutive local sends by `userU1`. -/
def sendFirst : SendResult :=
  handleSendMessage (some userU1) "T1" [] "first" false

/-- Second local send by `userU1`, before any durable write completes. -/
def sendSecond : SendResult :=
  handleSendMessage (some userU1) "T2" sendFirst.messages "second" false

-- Sanity checks on concrete inputs.
example :
    msgIds (subscribeRun (some "me") []
      [⟨EventAction.create, ⟨"m1", "hi", "u2", "T1", none⟩⟩,
       ⟨EventAction.create, ⟨"m1", "hi", "u2", "T1", none⟩⟩]) = ["m1"] := by
  decide

example :
    (handleSendMessage (some ⟨"u1", "n"⟩) "T" [] " hi " false).createCalls
      = [{ text := " hi ", userId := "u1" }] := by
  decide

example :
    (handleSendMessage (some ⟨"u1", "n"⟩) "T" [] "   " false).createCalls = [] := by
  decide

example :
    parsePbError (ErrVal.obj (some "Failed to create record.")
      (some { code := 400,
              data := some [("email",
                { code := "validation_not_unique",
                  message := "Value must be unique." })] }))
      = "Account with this email already exists" := by
  decide

example :
    parsePbError (ErrVal.obj (some "Failed to authenticate.")
      (some { code := 400,
              data := some [("identity",
                { code := "validation_required",
                  message := "Invalid email or password." })] }))
      = "Invalid email or password." := by
  decide

example : parsePbError (ErrVal.obj (some "boom") none) = "boom" := by decide

example : parsePbError ErrVal.nonObject = "An unknown error occurred." := by
  decide

/-! ### Helper lemmas -/

theorem strTruthy_pos {s : String} (h : strTruthy s = true) : 0 < s.length := by
  unfold strTruthy at h
  simp only [bne_iff_ne, ne_eq] at h
  exact Nat.pos_of_ne_zero h

theorem fallbackMsg_pos (msg : Option String) : 0 < (fallbackMsg msg).length := by
  cases msg with
  | none => decide
  | some m =>
    show 0 < (if strTruthy m = true then m else "An unknown error occurred.").length
    cases hb : strTruthy m with
    | true =>
      show 0 < m.length
      exact strTruthy_pos hb
    | false =>
      show 0 < ("An unknown error occurred." : String).length
      decide

theorem any_beq_id (prev : List Message) (x : String) :
    (prev.any fun msg => msg.id == x) = ((msgIds prev).any fun j => j == x) := by
  induction prev with
  | nil => rfl
  | cons m ms ih =>
    simp only [msgIds, List.any_cons, List.map_cons] at ih ⊢
    rw [ih]

theorem msgIds_append (l : List Message) (m : Message) :
    msgIds (l ++ [m]) = msgIds l ++ [m.id] := by
  simp [msgIds]

theorem handler_not_create (localId : Option String) (prev : List Message)
    (e : RemoteEvent) (h : e.action ≠ EventAction.create) :
    subscribeHandler localId prev e = prev := by
  unfold subscribeHandler
  rw [if_neg h]

theorem handler_local_author (localId : Option String) (prev : List Message)
    (e : RemoteEvent) (hact : e.action = EventAction.create)
    (h : isLocalAuthor localId e.record.userId = true) :
    subscribeHandler localId prev e = prev := by
  unfold subscribeHandler
  rw [if_pos hact, if_pos h]

theorem handler_dup (localId : Option String) (prev : List Message)
    (e : RemoteEvent) (hact : e.action = EventAction.create)
    (hmem : e.record.id ∈ msgIds prev) :
    subscribeHandler localId prev e = prev := by
  unfold subscribeHandler
  rw [if_pos hact]
  have hany : (prev.any fun msg => msg.id == e.record.id) = true := by
    rw [any_beq_id]
    simp only [List.any_eq_true, beq_iff_eq]
    exact ⟨e.record.id, hmem, rfl⟩
  cases hl : isLocalAuthor localId e.record.userId with
  | true => simp
  | false => simp [hany]

theorem handler_ids_step (uid : String) (prev : List Message) (e : RemoteEvent)
    (hact : e.action = EventAction.create) (hne : e.record.userId ≠ uid) :
    msgIds (subscribeHandler (some uid) prev e)
      = idStep (msgIds prev) e.record.id := by
  have hbeq : isLocalAuthor (some uid) e.record.userId = false := by
    unfold isLocalAuthor
    exact beq_eq_false_iff_ne.mpr hne
  unfold subscribeHandler idStep
  rw [if_pos hact, hbeq]
  rw [any_beq_id]
  cases hc : ((msgIds prev).any fun j => j == e.record.id) with
  | true => simp
  | false => simp [msgIds]

theorem subRun_ids (uid : String) :
    ∀ events : List RemoteEvent,
      (∀ e ∈ events, e.action = EventAction.create ∧ e.record.userId ≠ uid) →
      ∀ prev : List Message,
        msgIds (subscribeRun (some uid) prev events)
          = (events.map fun e => e.record.id).foldl idStep (msgIds prev)
  | [], _, prev => rfl
  | e :: es, h, prev => by
    have he := h e (List.mem_cons_self e es)
    have hes : ∀ x ∈ es, x.action = EventAction.create ∧ x.record.userId ≠ uid :=
      fun x hx => h x (List.mem_cons_of_mem e hx)
    have hstep := handler_ids_step uid prev e he.1 he.2
    calc msgIds (subscribeRun (some uid) prev (e :: es))
        = msgIds (subscribeRun (some uid) (subscribeHandler (some uid) prev e) es) := rfl
      _ = (es.map fun x => x.record.id).foldl idStep
            (msgIds (subscribeHandler (some uid) prev e)) := subRun_ids uid es hes _
      _ = (es.map fun x => x.record.id).foldl idStep
            (idStep (msgIds prev) e.record.id) := by rw [hstep]
      _ = ((e :: es).map fun x => x.record.id).foldl idStep (msgIds prev) := by
            simp [List.foldl_cons]

theorem not_mem_of_any_beq_false {prev : List Message} {x : String}
    (hany : ¬(prev.any fun msg => msg.id == x) = true) :
    x ∉ msgIds prev := by
  intro hmem
  apply hany
  rw [any_beq_id]
  simp only [List.any_eq_true, beq_iff_eq]
  exact ⟨x, hmem, rfl⟩

theorem nodup_append_singleton {l : List String} {a : String}
    (h : l.Nodup) (ha : a ∉ l) : (l ++ [a]).Nodup := by
  simp [List.nodup_append, h, ha]

theorem handler_preserves_nodup (localId : Option String) (prev : List Message)
    (e : RemoteEvent) (h : (msgIds prev).Nodup) :
    (msgIds (subscribeHandler localId prev e)).Nodup := by
  unfold subscribeHandler
  split
  · split
    · exact h
    · split
      · exact h
      · rename_i hany
        rw [msgIds_append]
        exact nodup_append_singleton h (not_mem_of_any_beq_false hany)
  · exact h

theorem send_preserves_nodup (u : AuthUser) (now : String)
    (msgs : List Message) (input : String) (fail : Bool)
    (h : (msgIds msgs).Nodup) (hfree : ∀ m ∈ msgs, m.id ≠ u.id) :
    (msgIds (handleSendMessage (some u) now msgs input fail).messages).Nodup := by
  unfold handleSendMessage
  split
  · rename_i heq
    exact absurd heq (by simp)
  · rename_i u' heq
    injection heq with heq
    subst heq
    split
    · rw [msgIds_append]
      refine nodup_append_singleton h ?_
      intro hmem
      obtain ⟨m, hm, hid⟩ := by
        simpa only [msgIds, List.mem_map] using hmem
      exact hfree m hm hid
    · exact h

/-! ### Claims -/

/-- C1: for every sequence of remote creation events whose authors differ
from the local session user, the final visible list (starting empty)
contains exactly one entry per distinct identifier, in first-arrival
order; and delivering a create event whose identifier is already present
leaves the list's length unchanged. -/
theorem remote_events_one_entry_first_arrival (uid : String)
    (events : List RemoteEvent)
    (h : ∀ e ∈ events, e.action = EventAction.create ∧ e.record.userId ≠ uid) :
    msgIds (subscribeRun (some uid) [] events)
      = firstArrival (events.map fun e => e.record.id)
    ∧ ∀ (prev : List Message) (e : RemoteEvent),
        e.action = EventAction.create → e.record.id ∈ msgIds prev →
        (subscribeHandler (some uid) prev e).length = prev.length := by
  constructor
  · exact subRun_ids uid events h []
  · intro prev e hact hmem
    rw [handler_dup (some uid) prev e hact hmem]

/-- C1 witness: the same event delivered twice yields one entry, and a
redelivery against a list already holding the id keeps the length. -/
theorem remote_events_one_entry_first_arrival_witness :
    msgIds (subscribeRun (some "me") [] [evM1, evM1]) = firstArrival ["m1", "m1"]
    ∧ (subscribeHandler (some "me") [msgM1] evM1).length = [msgM1].length :=
  ⟨(remote_events_one_entry_first_arrival "me" [evM1, evM1] (by decide)).1,
   (remote_events_one_entry_first_arrival "me" [evM1, evM1] (by decide)).2
     [msgM1] evM1 (by decide) (by decide)⟩

/-- C2: a remote create event whose record's author id equals the local
session user's id leaves the visible list unchanged, whatever the list. -/
theorem own_author_event_ignored (uid : String) (prev : List Message)
    (e : RemoteEvent) (hact : e.action = EventAction.create)
    (hid : e.record.userId = uid) :
    subscribeHandler (some uid) prev e = prev :=
  handler_local_author (some uid) prev e hact (by simp [isLocalAuthor, hid])

/-- C2 witness: an event authored by "u2" is dropped by session user "u2"
even though its id is not yet in the list. -/
theorem own_author_event_ignored_witness :
    subscribeHandler (some "u2") [] evM1 = [] :=
  own_author_event_ignored "u2" [] evM1 (by decide) (by decide)

/-- C3 counterexample: two consecutive local sends by the same user give
the visible list two entries with the same identifier "u1", and a list
with ids `["u1", "u1"]` is not duplicate-free. -/
theorem consecutive_sends_duplicate_identifier :
    msgIds sendSecond.messages = ["u1", "u1"]
    ∧ decide (List.Nodup (["u1", "u1"] : List String)) = false := by
  constructor
  · decide
  · rfl

/-- C3 (amended): identifier uniqueness is preserved by the initial load
(given duplicate-free fetched records) and by every remote creation
event; a local send preserves it only when no entry already carries the
sender's user id — two consecutive sends by the same user before a
durable write completes violate it. -/
theorem uniqueness_preserved_except_sender_collision :
    (∀ fetched : List Message, (msgIds fetched).Nodup →
        (msgIds (loadMessages fetched)).Nodup)
    ∧ (∀ (localId : Option String) (prev : List Message) (e : RemoteEvent),
        (msgIds prev).Nodup → (msgIds (subscribeHandler localId prev e)).Nodup)
    ∧ (∀ (u : AuthUser) (now : String) (msgs : List Message) (input : String)
        (fail : Bool), (msgIds msgs).Nodup → (∀ m ∈ msgs, m.id ≠ u.id) →
        (msgIds (handleSendMessage (some u) now msgs input fail).messages).Nodup) :=
  ⟨fun _ h => h, handler_preserves_nodup, send_preserves_nodup⟩

/-- C3 witness: each operation applied to the duplicate-free list
`[msgM1]` (and a sender whose id is absent from it) keeps the ids
duplicate-free. -/
theorem uniqueness_preserved_except_sender_collision_witness :
    (msgIds (loadMessages [msgM1])).Nodup
    ∧ (msgIds (subscribeHandler (some "me") [msgM1] evM1)).Nodup
    ∧ (msgIds (handleSendMessage (some userU1) "T" [msgM1] "hello"
        false).messages).Nodup :=
  ⟨uniqueness_preserved_except_sender_collision.1 [msgM1] (by decide),
   uniqueness_preserved_except_sender_collision.2.1 (some "me") [msgM1] evM1
     (by decide),
   uniqueness_preserved_except_sender_collision.2.2 userU1 "T" [msgM1] "hello"
     false (by decide) (by decide)⟩

/-- C4 counterexample: for the input " hi " the single durable create call
carries the raw text " hi ", which differs from the trimmed text. -/
theorem send_payload_is_untrimmed :
    ((handleSendMessage (some userU1) "T" [] " hi " false).createCalls.map
        fun p => p.text) = [" hi "]
    ∧ (" hi " == jsTrim " hi ") = false := by
  constructor
  · decide
  · decide

/-- C4 (amended): on a non-whitespace input with an authenticated user,
the send appends exactly one provisional entry (id and author both the
sender's id, text the raw input), clears the composer, and issues exactly
one durable create call — whose payload carries the RAW input text (the
trim is applied only in the guard) and the author's user id. -/
theorem local_send_appends_clears_creates (u : AuthUser) (now : String)
    (msgs : List Message) (input : String) (fail : Bool)
    (h : strTruthy (jsTrim input) = true) :
    (handleSendMessage (some u) now msgs input fail).messages
        = msgs ++ [{ created := now, id := u.id, text := input,
                     userId := u.id, expand := none }]
    ∧ (handleSendMessage (some u) now msgs input fail).messages.length
        = msgs.length + 1
    ∧ (handleSendMessage (some u) now msgs input fail).newMessage = ""
    ∧ (handleSendMessage (some u) now msgs input fail).createCalls
        = [{ text := input, userId := u.id }] := by
  unfold handleSendMessage
  simp [h]

/-- C4 witness: sending "hello" as `userU1` from the empty list. -/
theorem local_send_appends_clears_creates_witness :
    (handleSendMessage (some userU1) "T" [] "hello" false).messages
        = [] ++ [{ created := "T", id := userU1.id, text := "hello",
                   userId := userU1.id, expand := none }]
    ∧ (handleSendMessage (some userU1) "T" [] "hello" false).messages.length
        = List.length ([] : List Message) + 1
    ∧ (handleSendMessage (some userU1) "T" [] "hello" false).newMessage = ""
    ∧ (handleSendMessage (some userU1) "T" [] "hello" false).createCalls
        = [{ text := "hello", userId := userU1.id }] :=
  local_send_appends_clears_creates userU1 "T" [] "hello" false (by decide)

/-- C5: on a whitespace-only (or empty) input the send is a complete
no-op: list unchanged, composer unchanged, no create call, nothing
logged. -/
theorem whitespace_send_noop (currentUser : Option AuthUser) (now : String)
    (msgs : List Message) (input : String) (fail : Bool)
    (h : strTruthy (jsTrim input) = false) :
    handleSendMessage currentUser now msgs input fail
      = { messages := msgs, newMessage := input,
          createCalls := [], errorLogged := false } := by
  cases currentUser with
  | none => rfl
  | some u =>
    unfold handleSendMessage
    simp [h]

/-- C5 witness: the input "   " leaves everything unchanged. -/
theorem whitespace_send_noop_witness :
    handleSendMessage (some userU1) "T" [msgM1] "   " false
      = { messages := [msgM1], newMessage := "   ",
          createCalls := [], errorLogged := false } :=
  whitespace_send_noop (some userU1) "T" [msgM1] "   " false (by decide)

/-- C6: when the awaited durable create call fails, the provisional entry
remains in the list (no rollback), the composer stays cleared, the failure
is only logged, and only the one original create call was issued (no
retry); the resulting list equals the success case's list. -/
theorem failed_send_keeps_optimistic_entry (u : AuthUser) (now : String)
    (msgs : List Message) (input : String)
    (h : strTruthy (jsTrim input) = true) :
    (handleSendMessage (some u) now msgs input true).messages
        = msgs ++ [{ created := now, id := u.id, text := input,
                     userId := u.id, expand := none }]
    ∧ (handleSendMessage (some u) now msgs input true).newMessage = ""
    ∧ (handleSendMessage (some u) now msgs input true).errorLogged = true
    ∧ (handleSendMessage (some u) now msgs input true).createCalls.length = 1
    ∧ (handleSendMessage (some u) now msgs input true).messages
        = (handleSendMessage (some u) now msgs input false).messages := by
  unfold handleSendMessage
  simp [h]

/-- C6 witness: a failing send of "hello" by `userU1`. -/
theorem failed_send_keeps_optimistic_entry_witness :
    (handleSendMessage (some userU1) "T" [] "hello" true).messages
        = [] ++ [{ created := "T", id := userU1.id, text := "hello",
                   userId := userU1.id, expand := none }]
    ∧ (handleSendMessage (some userU1) "T" [] "hello" true).newMessage = ""
    ∧ (handleSendMessage (some userU1) "T" [] "hello" true).errorLogged = true
    ∧ (handleSendMessage (some userU1) "T" [] "hello" true).createCalls.length = 1
    ∧ (handleSendMessage (some userU1) "T" [] "hello" true).messages
        = (handleSendMessage (some userU1) "T" [] "hello" false).messages :=
  failed_send_keeps_optimistic_entry userU1 "T" [] "hello" (by decide)

/-- C7 counterexample: a first field message "Value must be unique." is
shown as the fixed duplicate-account text, not as the field's own
message, so the claimed equality with the first field message fails. -/
theorem unique_violation_rewrites_field_message :
    parsePbError (ErrVal.obj (some "Failed to create record.")
      (some { code := 400,
              data := some [("email",
                { code := "validation_not_unique",
                  message := "Value must be unique." })] }))
      = "Account with this email already exists"
    ∧ ("Account with this email already exists" == "Value must be unique.")
      = false := by
  constructor
  · decide
  · decide

/-- C7 (amended): the user-facing auth error equals the first field-level
message when a non-empty field message exists — unless that message
contains "value must be unique" (compared lowercased), in which case the
fixed duplicate-account text is shown instead; without a usable field
message it falls back to the error's own top-level message or the generic
"An unknown error occurred." text. -/
theorem auth_error_first_field_or_fallback (msg : Option String)
    (c : Nat) (k : String) (f : PbField) (rest : List (String × PbField)) :
    (strTruthy f.message = true →
      strIncludes (jsToLower f.message) "value must be unique" = false →
      parsePbError (ErrVal.obj msg
          (some { code := c, data := some ((k, f) :: rest) })) = f.message)
    ∧ (strTruthy f.message = true →
      strIncludes (jsToLower f.message) "value must be unique" = true →
      parsePbError (ErrVal.obj msg
          (some { code := c, data := some ((k, f) :: rest) }))
        = "Account with this email already exists")
    ∧ (strTruthy f.message = false →
      parsePbError (ErrVal.obj msg
          (some { code := c, data := some ((k, f) :: rest) })) = fallbackMsg msg)
    ∧ parsePbError (ErrVal.obj msg (some { code := c, data := some [] }))
        = fallbackMsg msg
    ∧ parsePbError (ErrVal.obj msg (some { code := c, data := none }))
        = fallbackMsg msg
    ∧ parsePbError (ErrVal.obj msg none) = fallbackMsg msg := by
  refine ⟨?_, ?_, ?_, rfl, rfl, rfl⟩
  · intro h1 h2
    simp [parsePbError, h1, h2]
  · intro h1 h2
    simp [parsePbError, h1, h2]
  · intro h1
    simp [parsePbError, h1]

/-- C7 witness: a plain validation message is surfaced verbatim, and a
uniqueness-violation message is surfaced as the duplicate-account text. -/
theorem auth_error_first_field_or_fallback_witness :
    parsePbError (ErrVal.obj (some "top")
      (some { code := 400,
              data := some [("identity",
                { code := "validation_required",
                  message := "Invalid email or password." })] }))
      = "Invalid email or password."
    ∧ parsePbError (ErrVal.obj (some "top")
      (some { code := 400,
              data := some [("email",
                { code := "validation_not_unique",
                  message := "Value must be unique." })] }))
      = "Account with this email already exists" :=
  ⟨(auth_error_first_field_or_fallback (some "top") 400 "identity"
      { code := "validation_required", message := "Invalid email or password." }
      []).1 (by decide) (by decide),
   (auth_error_first_field_or_fallback (some "top") 400 "email"
      { code := "validation_not_unique", message := "Value must be unique." }
      []).2.1 (by decide) (by decide)⟩

/-- C8 (code evaluated at the failing input): the mount effect of the
conversation view opens the realtime subscription but returns no cleanup,
so nothing runs on unmount and the subscription is never torn down. -/
theorem chat_mount_effect_has_no_cleanup :
    EffAction.subscribeCall ∈ chatMountEffect.onMount
    ∧ chatMountEffect.onUnmount = [] := by
  constructor
  · decide
  · rfl

/-- C9: `parsePbError` is total and, for every input shape, returns a
non-empty string. -/
theorem parsePbError_returns_nonempty (e : ErrVal) :
    0 < (parsePbError e).length := by
  cases e with
  | nonObject => decide
  | obj msg resp =>
    cases resp with
    | none => exact fallbackMsg_pos msg
    | some r =>
      obtain ⟨c, dat⟩ := r
      cases dat with
      | none => exact fallbackMsg_pos msg
      | some fields =>
        cases fields with
        | nil => exact fallbackMsg_pos msg
        | cons kf rest =>
          obtain ⟨k, f⟩ := kf
          show 0 < (if strTruthy f.message then
              (if strIncludes (jsToLower f.message) "value must be unique" then
                "Account with this email already exists"
              else f.message)
            else fallbackMsg msg).length
          cases hb : strTruthy f.message with
          | false =>
            show 0 < (fallbackMsg msg).length
            exact fallbackMsg_pos msg
          | true =>
            cases hs : strIncludes (jsToLower f.message) "value must be unique" with
            | true =>
              show 0 < ("Account with this email already exists" : String).length
              decide
            | false =>
              show 0 < f.message.length
              exact strTruthy_pos hb

/-- C10: logout clears the external auth store and resets the visible
message list to empty, whatever the prior state. -/
theorem logout_clears_auth_and_messages (s : ChatState) :
    (handleLogout s).authRecord = none ∧ (handleLogout s).messages = [] :=
  ⟨rfl, rfl⟩
